import Mathlib

/-!
Verification development for the voice-assistant orchestration core of the
Eeknova AI Trainer frontend.

The definitions below are a shallow embedding of the relevant parts of
`src/frontend/src/components/AssistantShell.tsx` and
`src/frontend/src/app/api/realtime/token/route.ts`.  Each definition carries a
comment pointing at the source lines it embeds.  Strings are modelled as
`List Char`; timestamps (`Date.now()`) as `Nat` milliseconds; browser
resources (peer connections, media streams, audio contexts, timers) as
`Option Nat` handles.
-/

set_option maxRecDepth 4096

namespace Assistant

/-! ## Character-level text utilities

JavaScript string operations used by the wake/exit matching code:
`trim()`, `toLowerCase()`, `RegExp.test` with word boundaries, and
`String.replace` with a global regex.  The inputs of interest are ASCII
transcripts, for which `Char.toLower` agrees with `toLowerCase` and the
whitespace class below agrees with the regex class for whitespace. -/

/-- Whitespace characters (the ASCII part of the regex whitespace class). -/
def isWs (c : Char) : Bool :=
  c = ' ' || c = '\t' || c = '\n' || c = '\r' || c = '\x0b' || c = '\x0c'

/-- JavaScript `String.prototype.trim` on a character list. -/
def trimChars (s : List Char) : List Char :=
  ((s.dropWhile isWs).reverse.dropWhile isWs).reverse

/-- JavaScript `String.prototype.toLowerCase` on ASCII text. -/
def lowerChars (s : List Char) : List Char :=
  s.map Char.toLower

/-- Word characters, as in the regex class used by a word boundary:
letters, digits and underscore. -/
def isWordChar (c : Char) : Bool :=
  c.isAlpha || c.isDigit || c = '_'

/-- Does `s` start with the literal character list `w`? -/
def startsWithChars : List Char → List Char → Bool
  | [], _ => true
  | _ :: _, [] => false
  | a :: as, b :: bs => a = b && startsWithChars as bs

/-- After consuming `w` at the front of `s`, is the next character (if any)
a non-word character?  Together with a non-word character on the left this
is exactly a word-boundary match of the literal `w`. -/
def boundaryAfter (w s : List Char) : Bool :=
  match List.drop w.length s with
  | [] => true
  | c :: _ => !(isWordChar c)

/-- Scan of `s` looking for the word `w` delimited by word boundaries.
`prevIsWord` records whether the character to the left of the current
position is a word character.  All words matched by the source patterns
start and end with word characters, so the boundary test reduces to the
neighbouring characters not being word characters. -/
def containsWordAux (w : List Char) : Bool → List Char → Bool
  | prevIsWord, s =>
    if !prevIsWord && startsWithChars w s && boundaryAfter w s then
      true
    else
      match s with
      | [] => false
      | c :: rest => containsWordAux w (isWordChar c) rest

/-- Regex test for the word `w` with word boundaries on both sides, e.g.
the test for a standalone occurrence of the word hello in the source. -/
def containsWord (w : List Char) (s : List Char) : Bool :=
  containsWordAux w false s

/-! ## The mis-hearing substitution table

`AssistantShell.tsx` lines 326-333 (wake-listener path) and lines 893-899
(transport-transcription path) canonicalize phonetic mis-hearings of the
product name with a chain of global regex replacements.  The patterns only
use literal characters, whitespace classes and one optional space, modelled
by `PatAtom`.  Every pattern starts with a literal, so a match always
consumes at least one character. -/

inductive PatAtom where
  /-- A literal character. -/
  | lit (c : Char)
  /-- One or more whitespace characters (greedy). -/
  | ws1
  /-- Zero or more whitespace characters (greedy). -/
  | ws0
  /-- An optional single space. -/
  | optSp
deriving DecidableEq, Repr

/-- Length of the leading whitespace run of `s`. -/
def wsRun : List Char → Nat
  | [] => 0
  | c :: rest => if isWs c then wsRun rest + 1 else 0

/-- Match a pattern at the front of `s`, returning the number of characters
consumed.  The whitespace atoms are matched greedily; in every pattern of
the table they are followed by a literal non-whitespace character, so the
greedy match coincides with the regex engine's backtracking match.  The
optional space backtracks explicitly. -/
def matchPat : List PatAtom → List Char → Option Nat
  | [], _ => some 0
  | .lit c :: ps, d :: rest => if d = c then (matchPat ps rest).map (· + 1) else none
  | .lit _ :: _, [] => none
  | .ws1 :: ps, s =>
    let n := wsRun s
    if n = 0 then none else (matchPat ps (List.drop n s)).map (· + n)
  | .ws0 :: ps, s =>
    let n := wsRun s
    (matchPat ps (List.drop n s)).map (· + n)
  | .optSp :: ps, s =>
    match s with
    | ' ' :: rest =>
      match matchPat ps rest with
      | some n => some (n + 1)
      | none => matchPat ps (' ' :: rest)
    | _ => matchPat ps s

/-- Global regex replacement: scan left to right, replace each
non-overlapping match and resume after it.  `fuel` bounds the recursion by
the length of the remaining text; every pattern in the table consumes at
least one character per match, so the fuel is never exhausted. -/
def replaceAllAux (pat : List PatAtom) (repl : List Char) : Nat → List Char → List Char
  | 0, s => s
  | _ + 1, [] => []
  | fuel + 1, c :: rest =>
    match matchPat pat (c :: rest) with
    | some n =>
      if n = 0 then c :: replaceAllAux pat repl fuel rest
      else repl ++ replaceAllAux pat repl fuel (List.drop n (c :: rest))
    | none => c :: replaceAllAux pat repl fuel rest

/-- JavaScript `s.replace(pat-with-global-flag, repl)`. -/
def replaceAll (pat : List PatAtom) (repl : List Char) (s : List Char) : List Char :=
  replaceAllAux pat repl s.length s

/-- Lift a literal string to a pattern of literal atoms. -/
def litPat (s : String) : List PatAtom :=
  s.toList.map .lit

/-- The canonical product name, the replacement of every table entry. -/
def eeknovaW : List Char := "eeknova".toList

/-- Pattern of the regex for the mis-hearing ek-whitespace-a-nova. -/
def patEkANova : List PatAtom :=
  [.lit 'e', .lit 'k', .ws1, .lit 'a', .ws0, .lit 'n', .lit 'o', .lit 'v', .lit 'a']

/-- Pattern of the regex for the mis-hearing an-nova with optional space. -/
def patAnOva : List PatAtom :=
  [.lit 'a', .lit 'n', .ws0, .lit 'o', .lit 'v', .lit 'a']

/-- Pattern of the regex for the mis-hearing ek-nova with one optional space. -/
def patEkSpNova : List PatAtom :=
  [.lit 'e', .lit 'k', .optSp, .lit 'n', .lit 'o', .lit 'v', .lit 'a']

/-- Wake-listener normalization, `AssistantShell.tsx` lines 326-333: seven
global replacements applied in source order. -/
def normalizeWake (s : List Char) : List Char :=
  replaceAll (litPat ("eekn0va")) eeknovaW
    (replaceAll (litPat ("ignova")) eeknovaW
      (replaceAll (litPat ("iknova")) eeknovaW
        (replaceAll (litPat ("eek nova")) eeknovaW
          (replaceAll patEkSpNova eeknovaW
            (replaceAll patAnOva eeknovaW
              (replaceAll patEkANova eeknovaW s))))))

/-- Transport-transcription normalization, `AssistantShell.tsx` lines
893-899: the same table except that the final digit-zero variant
replacement of the wake path is absent there. -/
def normalizeTransport (s : List Char) : List Char :=
  replaceAll (litPat ("ignova")) eeknovaW
    (replaceAll (litPat ("iknova")) eeknovaW
      (replaceAll (litPat ("eek nova")) eeknovaW
        (replaceAll patEkSpNova eeknovaW
          (replaceAll patAnOva eeknovaW
            (replaceAll patEkANova eeknovaW s)))))

/-! ## Words tested by the wake and exit rules -/

def helloW : List Char := "hello".toList
def hiW : List Char := "hi".toList
def heyW : List Char := "hey".toList
def novaW : List Char := "nova".toList
def byeW : List Char := "bye".toList
def byW : List Char := "by".toList
def exitW : List Char := "exit".toList

/-- The wake rule of lines 349-354 as a predicate on the normalized text:
a standalone hello, or a standalone hi/hey together with the product name
or its short alias. -/
def wakeRule (n2 : List Char) : Bool :=
  containsWord helloW n2 ||
    ((containsWord hiW n2 || containsWord heyW n2) &&
      (containsWord eeknovaW n2 || containsWord novaW n2))

/-- The exit-phrase test of lines 336 and 900: a standalone bye, by, or
exit in the normalized text. -/
def exitPhrase (n2 : List Char) : Bool :=
  containsWord byeW n2 || containsWord byW n2 || containsWord exitW n2

/-! ## Command interpreter state and steps

The wake-word listener result handler (`rec.onresult`, `AssistantShell.tsx`
lines 307-368) and the transport-transcription exit handler
(`maybeHandleExitFromTranscript`, lines 887-907) share two mutable
timestamps, `lastWakeTriggerAtRef` and `lastExitTriggerAtRef` (lines
70-71), both initialized to 0. -/

/-- The per-kind last-trigger timestamps (milliseconds). -/
structure InterpState where
  lastWake : Nat
  lastExit : Nat
deriving DecidableEq, Repr

/-- The externally visible effect of one `rec.onresult` invocation. -/
inductive WakeAct where
  /-- No action taken. -/
  | nop
  /-- Source `closeAssistantRef.current` invoked (line 345). -/
  | closeAssistant
  /-- Source `openAssistant()` then `startRealtimeSessionRef.current` (lines 360-363). -/
  | wakeOpenAndStart
  /-- Assistant already open: only `startRealtimeSessionRef.current` (line 363). -/
  | wakeStartOnly
deriving DecidableEq, Repr

/-- The Boolean phrase tests computed by `rec.onresult` from the raw
transcript: emptiness of the trimmed lowercase text (line 322) and word
tests on the normalized text (lines 336-350).  The `wantsOpen` test of
line 335 is computed by the source but never used by the trigger, so it is
omitted here. -/
structure TFlags where
  empty : Bool
  wantsClose : Bool
  hasName : Bool
  isHello : Bool
  isHiHey : Bool
deriving DecidableEq, Repr

/-- Flag computation of `rec.onresult`: trim and lowercase the transcript
(line 321), normalize mis-hearings (lines 326-333), then run the word
tests (lines 336-350). -/
def transcriptFlags (text : List Char) : TFlags :=
  let norm := trimChars (lowerChars text)
  let norm2 := normalizeWake norm
  { empty := norm = []
    wantsClose := containsWord byeW norm2 || containsWord byW norm2 || containsWord exitW norm2
    hasName := containsWord eeknovaW norm2 || containsWord novaW norm2
    isHello := containsWord helloW norm2
    isHiHey := containsWord hiW norm2 || containsWord heyW norm2 }

/-- Decision core of `rec.onresult` (lines 322-366): empty transcripts are
dropped; an exit phrase while the assistant is open goes through the
2500 ms exit cooldown and closes; otherwise the wake rule (hello alone, or
hi/hey plus the product name) goes through the 8000 ms wake cooldown and
opens/starts the session.  `Date.now()` subtraction on `Nat` is truncated,
which agrees with the source comparison since a negative difference and a
zero difference are both below the cooldown bound. -/
def onresultCore (openF : Bool) (now : Nat) (st : InterpState) (f : TFlags) :
    InterpState × WakeAct :=
  if f.empty then (st, .nop)
  else if f.wantsClose && openF then
    if now - st.lastExit < 2500 then (st, .nop)
    else ({ st with lastExit := now }, .closeAssistant)
  else if !(f.isHello || (f.isHiHey && f.hasName)) then (st, .nop)
  else if now - st.lastWake < 8000 then (st, .nop)
  else ({ st with lastWake := now }, if openF then .wakeStartOnly else .wakeOpenAndStart)

/-- One invocation of `rec.onresult` on a transcript, given the current
open flag (`openRef.current`), the clock, and the cooldown state.  The
handler's early return when wake detection is disabled (lines 310-313)
is outside this model: the step models an invocation with detection
enabled. -/
def onresultStep (openF : Bool) (now : Nat) (st : InterpState) (text : List Char) :
    InterpState × WakeAct :=
  onresultCore openF now st (transcriptFlags text)

/-- Source `maybeHandleExitFromTranscript` (lines 887-907): trim/lowercase,
normalize (six-entry table), test for an exit word, apply the 2500 ms exit
cooldown, and if it passes invoke `closeAssistantRef.current`.  Returns
the updated `lastExitTriggerAtRef` value and whether close was invoked.
The handler reads neither `openRef` nor any other open/closed flag. -/
def maybeHandleExitFromTranscript (now : Nat) (lastExit : Nat) (text : List Char) :
    Nat × Bool :=
  let norm := trimChars (lowerChars text)
  if norm = [] then (lastExit, false)
  else
    let norm2 := normalizeTransport norm
    if !(exitPhrase norm2) then (lastExit, false)
    else if now - lastExit < 2500 then (lastExit, false)
    else (now, true)

/-- The transport-transcription exit path seen as a step of the whole
shell: the data-channel message handler runs with the component state in
scope (including `openRef`), but `maybeHandleExitFromTranscript` ignores
the open flag entirely, so the step discards its `openF` argument exactly
as the source does. -/
def transportMsgStep (openF : Bool) (now : Nat) (lastExit : Nat) (text : List Char) :
    Nat × Bool :=
  maybeHandleExitFromTranscript now lastExit text

/-- Is the action one of the two wake outcomes? -/
def isWakeAct : WakeAct → Bool
  | .wakeOpenAndStart => true
  | .wakeStartOnly => true
  | _ => false

/-! ## Helper lemmas about the interpreter core -/

/-- A wake action can only come out of the wake branch, whose guard is the
wake rule on the flags. -/
theorem core_wake_needs_rule (openF : Bool) (now : Nat) (st : InterpState) (f : TFlags)
    (h : isWakeAct (onresultCore openF now st f).2 = true) :
    (f.isHello || (f.isHiHey && f.hasName)) = true := by
  obtain ⟨e, wc, hnm, ih, ihh⟩ := f
  cases e <;> cases wc <;> cases ih <;> cases ihh <;> cases hnm <;> cases openF <;>
    simp_all [onresultCore, isWakeAct]
  all_goals split_ifs at h <;> simp_all [isWakeAct]

/-- With the wake cooldown elapsed, a nonempty transcript, and no exit
preemption, the wake branch fires exactly when the wake rule holds on the
flags. -/
theorem core_wake_iff_rule (openF : Bool) (now : Nat) (st : InterpState) (f : TFlags)
    (hcool : 8000 ≤ now - st.lastWake) (hne : f.empty = false)
    (hnoexit : ¬(f.wantsClose = true ∧ openF = true)) :
    isWakeAct (onresultCore openF now st f).2 = true ↔
      (f.isHello || (f.isHiHey && f.hasName)) = true := by
  have hwc : (f.wantsClose && openF) = false := by
    cases hw : f.wantsClose <;> cases ho : openF <;> simp_all
  unfold onresultCore
  rw [hne, hwc]
  simp only [Bool.false_eq_true, if_false]
  by_cases hr : (f.isHello || (f.isHiHey && f.hasName)) = true
  · rw [hr]
    have : ¬ (now - st.lastWake < 8000) := by omega
    simp [this, isWakeAct]
    cases openF <;> simp [isWakeAct]
  · simp only [Bool.not_eq_true] at hr
    rw [hr]
    simp [isWakeAct]

/-- The empty transcript normalizes to the empty text, on which every word
test of the wake rule is false. -/
theorem wakeRule_empty : wakeRule (normalizeWake []) = false := by decide

/-- The emptiness flag is the emptiness test of the trimmed lowercase text. -/
theorem transcriptFlags_empty (text : List Char) :
    (transcriptFlags text).empty = decide (trimChars (lowerChars text) = []) := by
  unfold transcriptFlags
  dsimp only

/-- The close flag is the exit-phrase test on the normalized text. -/
theorem transcriptFlags_wantsClose (text : List Char) :
    (transcriptFlags text).wantsClose =
      exitPhrase (normalizeWake (trimChars (lowerChars text))) := by
  unfold transcriptFlags
  dsimp only
  rw [exitPhrase]

/-- The name flag is the product-name test on the normalized text. -/
theorem transcriptFlags_hasName (text : List Char) :
    (transcriptFlags text).hasName =
      (containsWord eeknovaW (normalizeWake (trimChars (lowerChars text))) ||
        containsWord novaW (normalizeWake (trimChars (lowerChars text)))) := by
  unfold transcriptFlags
  dsimp only

/-- The hello flag is the standalone-hello test on the normalized text. -/
theorem transcriptFlags_isHello (text : List Char) :
    (transcriptFlags text).isHello =
      containsWord helloW (normalizeWake (trimChars (lowerChars text))) := by
  unfold transcriptFlags
  dsimp only

/-- The hi/hey flag is the standalone hi-or-hey test on the normalized text. -/
theorem transcriptFlags_isHiHey (text : List Char) :
    (transcriptFlags text).isHiHey =
      (containsWord hiW (normalizeWake (trimChars (lowerChars text))) ||
        containsWord heyW (normalizeWake (trimChars (lowerChars text)))) := by
  unfold transcriptFlags
  dsimp only

/-- The state effect of each possible outcome of the interpreter core: a
wake action stamps `lastWake` only, a close action stamps `lastExit` only,
and no action leaves the state untouched. -/
theorem core_effects (o : Bool) (n : Nat) (st : InterpState) (f : TFlags) :
    (isWakeAct (onresultCore o n st f).2 = true →
      (onresultCore o n st f).1 = { st with lastWake := n })
    ∧ ((onresultCore o n st f).2 = .closeAssistant →
      (onresultCore o n st f).1 = { st with lastExit := n })
    ∧ ((onresultCore o n st f).2 = .nop → (onresultCore o n st f).1 = st) := by
  obtain ⟨e, wc, hnm, ih, ihh⟩ := f
  cases e <;> cases wc <;> cases ih <;> cases ihh <;> cases hnm <;> cases o <;>
    simp_all [onresultCore, isWakeAct] <;> split_ifs <;> simp_all [isWakeAct]

/-- While the wake cooldown has not elapsed, no wake action is produced. -/
theorem core_wake_cooldown (o : Bool) (n : Nat) (st : InterpState) (f : TFlags)
    (h : n - st.lastWake < 8000) :
    isWakeAct (onresultCore o n st f).2 = false := by
  obtain ⟨e, wc, hnm, ih, ihh⟩ := f
  cases e <;> cases wc <;> cases ih <;> cases ihh <;> cases hnm <;> cases o <;>
    simp_all [onresultCore, isWakeAct] <;> split_ifs <;> simp_all [isWakeAct]

/-- While the exit cooldown has not elapsed, no close action is produced. -/
theorem core_exit_cooldown (o : Bool) (n : Nat) (st : InterpState) (f : TFlags)
    (h : n - st.lastExit < 2500) :
    (onresultCore o n st f).2 ≠ .closeAssistant := by
  obtain ⟨e, wc, hnm, ih, ihh⟩ := f
  cases e <;> cases wc <;> cases ih <;> cases ihh <;> cases hnm <;> cases o <;>
    simp_all [onresultCore, isWakeAct] <;> split_ifs <;> simp_all [isWakeAct]

/-- The wake decision does not consult the exit timestamp. -/
theorem core_wake_ignores_exit (o : Bool) (n : Nat) (w e e' : Nat) (f : TFlags) :
    isWakeAct (onresultCore o n ⟨w, e⟩ f).2 = isWakeAct (onresultCore o n ⟨w, e'⟩ f).2 := by
  obtain ⟨em, wc, hnm, ih, ihh⟩ := f
  cases em <;> cases wc <;> cases ih <;> cases ihh <;> cases hnm <;> cases o <;>
    simp_all [onresultCore, isWakeAct] <;> split_ifs <;> simp_all [isWakeAct]

/-- The exit decision does not consult the wake timestamp. -/
theorem core_exit_ignores_wake (o : Bool) (n : Nat) (w w' e : Nat) (f : TFlags) :
    ((onresultCore o n ⟨w, e⟩ f).2 = .closeAssistant ↔
      (onresultCore o n ⟨w', e⟩ f).2 = .closeAssistant) := by
  obtain ⟨em, wc, hnm, ih, ihh⟩ := f
  cases em <;> cases wc <;> cases ih <;> cases ihh <;> cases hnm <;> cases o <;>
    simp_all [onresultCore, isWakeAct] <;> split_ifs <;> simp_all [isWakeAct]

/-- A close action can only come from the exit branch, whose guard requires
the open flag. -/
theorem core_close_needs_open (o : Bool) (n : Nat) (st : InterpState) (f : TFlags)
    (h : (onresultCore o n st f).2 = .closeAssistant) : o = true := by
  obtain ⟨em, wc, hnm, ih, ihh⟩ := f
  cases em <;> cases wc <;> cases ih <;> cases ihh <;> cases hnm <;> cases o <;>
    simp_all [onresultCore, isWakeAct] <;> split_ifs at h <;> simp_all [isWakeAct]

/-- State effect of the transport-transcription exit handler. -/
theorem transport_exit_effects (n e : Nat) (t : List Char) :
    ((maybeHandleExitFromTranscript n e t).2 = true →
      (maybeHandleExitFromTranscript n e t).1 = n)
    ∧ ((maybeHandleExitFromTranscript n e t).2 = false →
      (maybeHandleExitFromTranscript n e t).1 = e) := by
  unfold maybeHandleExitFromTranscript
  by_cases h1 : trimChars (lowerChars t) = []
  · simp [h1]
  · cases h2 : exitPhrase (normalizeTransport (trimChars (lowerChars t))) <;>
      simp [h1, h2] <;> split_ifs <;> simp

/-- The transport-transcription exit handler is silent during the exit
cooldown. -/
theorem transport_exit_cooldown (n e : Nat) (t : List Char) (h : n - e < 2500) :
    (maybeHandleExitFromTranscript n e t).2 = false := by
  unfold maybeHandleExitFromTranscript
  split_ifs <;> simp_all

/-- Claim C4: the wake rule triggers exactly when the normalized transcript
contains the standalone word hello, or contains one of the standalone words
hi/hey together with the product name eeknova or its short alias nova,
where the normalized transcript is the trimmed lowercased text after the
fixed mis-hearing substitution table has been applied.  First conjunct: a
transcript whose normalization satisfies neither disjunct never produces a
wake action.  Second conjunct: when the 8-second wake cooldown has elapsed
and the exit branch (an exit phrase while the assistant is open) does not
preempt the handler, the wake action fires exactly when the rule holds. -/
theorem wake_rule_characterization (openF : Bool) (now : Nat) (st : InterpState)
    (text : List Char) :
    (isWakeAct (onresultStep openF now st text).2 = true →
      wakeRule (normalizeWake (trimChars (lowerChars text))) = true)
    ∧ (8000 ≤ now - st.lastWake →
      ¬(exitPhrase (normalizeWake (trimChars (lowerChars text))) = true ∧ openF = true) →
      (isWakeAct (onresultStep openF now st text).2 = true ↔
        wakeRule (normalizeWake (trimChars (lowerChars text))) = true)) := by
  constructor
  · intro h
    have h2 := core_wake_needs_rule openF now st (transcriptFlags text) h
    rw [transcriptFlags_isHello, transcriptFlags_isHiHey, transcriptFlags_hasName] at h2
    unfold wakeRule
    exact h2
  · intro hcool hnoexit
    by_cases hn : trimChars (lowerChars text) = []
    · constructor
      · intro h
        have h2 := core_wake_needs_rule openF now st (transcriptFlags text) h
        rw [transcriptFlags_isHello, transcriptFlags_isHiHey, transcriptFlags_hasName] at h2
        unfold wakeRule
        exact h2
      · intro h
        rw [hn, wakeRule_empty] at h
        exact absurd h (by simp)
    · have hne : (transcriptFlags text).empty = false := by
        rw [transcriptFlags_empty]
        exact decide_eq_false hn
      have hwc : ¬((transcriptFlags text).wantsClose = true ∧ openF = true) := by
        rw [transcriptFlags_wantsClose]
        exact hnoexit
      have hiff := core_wake_iff_rule openF now st (transcriptFlags text) hcool hne hwc
      rw [transcriptFlags_isHello, transcriptFlags_isHiHey, transcriptFlags_hasName] at hiff
      unfold wakeRule onresultStep
      exact hiff

set_option maxHeartbeats 1000000

/-- Witness for claim C4: with the cooldown elapsed and the assistant
closed, the transcript Hey Nova produces a wake action. -/
theorem wake_rule_characterization_witness :
    isWakeAct (onresultStep false 9000 ⟨0, 0⟩ ("Hey Nova".toList)).2 = true :=
  ((wake_rule_characterization false 9000 ⟨0, 0⟩ ("Hey Nova".toList)).2
    (by decide) (by simp)).mpr (by decide)

set_option maxHeartbeats 200000

/-- Claim C5: wake and exit triggers are debounced by two independent
per-kind cooldown timestamps.  Conjuncts: (1) after a wake action at time
n1, any second result within 8000 ms produces no wake action; (2) after a
close action on the wake-listener path at n1, any second result within
2500 ms produces no close action; (3) the same for the
transport-transcription exit path; (4) a wake action stamps only the wake
timestamp, a close action stamps only the exit timestamp, and no action
leaves both unchanged; (5) the wake decision is independent of the exit
timestamp; (6) the exit decision is independent of the wake timestamp. -/
theorem per_kind_cooldowns :
    (∀ (o1 o2 : Bool) (n1 n2 : Nat) (st : InterpState) (t1 t2 : List Char),
      isWakeAct (onresultStep o1 n1 st t1).2 = true → n1 ≤ n2 → n2 - n1 < 8000 →
      isWakeAct (onresultStep o2 n2 (onresultStep o1 n1 st t1).1 t2).2 = false)
    ∧ (∀ (o1 o2 : Bool) (n1 n2 : Nat) (st : InterpState) (t1 t2 : List Char),
      (onresultStep o1 n1 st t1).2 = .closeAssistant → n2 - n1 < 2500 →
      (onresultStep o2 n2 (onresultStep o1 n1 st t1).1 t2).2 ≠ .closeAssistant)
    ∧ (∀ (n1 n2 e : Nat) (t1 t2 : List Char),
      (maybeHandleExitFromTranscript n1 e t1).2 = true → n2 - n1 < 2500 →
      (maybeHandleExitFromTranscript n2 (maybeHandleExitFromTranscript n1 e t1).1 t2).2 = false)
    ∧ (∀ (o : Bool) (n : Nat) (st : InterpState) (t : List Char),
      (isWakeAct (onresultStep o n st t).2 = true →
        (onresultStep o n st t).1 = { st with lastWake := n })
      ∧ ((onresultStep o n st t).2 = .closeAssistant →
        (onresultStep o n st t).1 = { st with lastExit := n })
      ∧ ((onresultStep o n st t).2 = .nop → (onresultStep o n st t).1 = st))
    ∧ (∀ (o : Bool) (n w e e' : Nat) (t : List Char),
      isWakeAct (onresultStep o n ⟨w, e⟩ t).2 = isWakeAct (onresultStep o n ⟨w, e'⟩ t).2)
    ∧ (∀ (o : Bool) (n w w' e : Nat) (t : List Char),
      ((onresultStep o n ⟨w, e⟩ t).2 = .closeAssistant ↔
        (onresultStep o n ⟨w', e⟩ t).2 = .closeAssistant)) := by
  refine ⟨?_, ?_, ?_, ?_, ?_, ?_⟩
  · intro o1 o2 n1 n2 st t1 t2 h1 _ hlt
    have hst := (core_effects o1 n1 st (transcriptFlags t1)).1 h1
    have : (onresultStep o1 n1 st t1).1.lastWake = n1 := by
      simp [onresultStep] at hst ⊢; rw [hst]
    apply core_wake_cooldown
    omega
  · intro o1 o2 n1 n2 st t1 t2 h1 hlt
    have hst := (core_effects o1 n1 st (transcriptFlags t1)).2.1 h1
    have : (onresultStep o1 n1 st t1).1.lastExit = n1 := by
      simp [onresultStep] at hst ⊢; rw [hst]
    apply core_exit_cooldown
    omega
  · intro n1 n2 e t1 t2 h1 hlt
    have hst := (transport_exit_effects n1 e t1).1 h1
    apply transport_exit_cooldown
    omega
  · intro o n st t
    exact core_effects o n st (transcriptFlags t)
  · intro o n w e e' t
    exact core_wake_ignores_exit o n w e e' (transcriptFlags t)
  · intro o n w w' e t
    exact core_exit_ignores_wake o n w w' e (transcriptFlags t)

/-- Witness for claim C5: the wake phrase hello fired at 9000 ms opens the
assistant; the same phrase fired again at 10000 ms is suppressed by the
8-second wake cooldown. -/
theorem per_kind_cooldowns_witness :
    isWakeAct (onresultStep false 10000
      (onresultStep false 9000 ⟨0, 0⟩ ("hello".toList)).1 ("hello".toList)).2 = false :=
  per_kind_cooldowns.1 false false 9000 10000 ⟨0, 0⟩ ("hello".toList) ("hello".toList)
    (by decide) (by decide) (by decide)

/-- Counterexample for claim C6: on the transport-transcription path, the
exit phrase bye heard while the assistant is closed (open flag false) still
invokes `closeAssistant` — `maybeHandleExitFromTranscript` never consults
the open flag, so the closed-state guard claimed for both paths does not
exist on this path. -/
theorem transport_exit_ignores_open_counterexample :
    (transportMsgStep false 10000 0 ("bye".toList)).2 = true := by
  decide

/-- Claim C6 (amended): on the wake-listener path an exit phrase fires only
while the assistant is open (the close action implies the open flag); on
the transport-transcription path the handler fires exactly when the
normalized text contains a standalone exit word and the 2.5-second exit
cooldown has elapsed, regardless of the open flag, which it never reads. -/
theorem exit_only_while_open_amended :
    (∀ (o : Bool) (n : Nat) (st : InterpState) (t : List Char),
      (onresultStep o n st t).2 = .closeAssistant → o = true)
    ∧ (∀ (o : Bool) (n e : Nat) (t : List Char),
      ((transportMsgStep o n e t).2 = true ↔
        exitPhrase (normalizeTransport (trimChars (lowerChars t))) = true ∧ 2500 ≤ n - e)) := by
  constructor
  · intro o n st t h
    exact core_close_needs_open o n st (transcriptFlags t) h
  · intro o n e t
    unfold transportMsgStep maybeHandleExitFromTranscript
    by_cases hn : trimChars (lowerChars t) = []
    · have h0 : exitPhrase (normalizeTransport []) = false := by decide
      simp [hn, h0]
    · rw [if_neg hn]
      cases hp : exitPhrase (normalizeTransport (trimChars (lowerChars t)))
      · simp [hp]
      · split_ifs with hc <;> simp [hp] <;> omega

/-- Witness for the amended claim C6: the transcript ok bye fired at an
open assistant produces the close action, and the theorem applied to it
confirms the open flag. -/
theorem exit_only_while_open_amended_witness :
    (onresultStep true 10000 ⟨0, 0⟩ ("ok bye".toList)).2 = WakeAct.closeAssistant
      ∧ true = true :=
  ⟨by decide, exit_only_while_open_amended.1 true 10000 ⟨0, 0⟩ ("ok bye".toList) (by decide)⟩

/-! ## The credential (realtime token) route

Embedding of the `POST` handler of
`src/frontend/src/app/api/realtime/token/route.ts`.  The handler loops for
at most `maxAttempts` fetches against the session-creation endpoint;
`FetchResult` models one response of that endpoint (a thrown network error
or an HTTP response with status and body), and the environment is a
function from attempt number and requested model to the response. -/

/-- The two realtime models involved in the fallback policy. -/
inductive RTModel where
  /-- Source `gpt-4o-mini-realtime-preview` (route.ts line 28). -/
  | cheap
  /-- Source `gpt-4o-realtime-preview` (route.ts line 29). -/
  | fallback
deriving DecidableEq, Repr

/-- Source `cheapDefaultModel` of route.ts line 28. -/
def cheapDefaultModel : RTModel := .cheap

/-- Source `fallbackModel` of route.ts line 29. -/
def fallbackModel : RTModel := .fallback

/-- One outcome of `fetch` against the upstream endpoint: either the fetch
throws (network error) or an HTTP response arrives. -/
inductive FetchResult where
  | netError
  | resp (status : Nat) (body : List Char)
deriving DecidableEq, Repr

/-- Case-insensitive substring test used to model the body pattern
`invalid_model|model_not_found|unsupported_model` of route.ts line 78:
the alternation matches iff one of the three literals occurs as a
substring of the body (the literals are lowercase and case folding is the
ASCII one). -/
def containsSubAux (w : List Char) : List Char → Bool
  | [] => startsWithChars w []
  | c :: rest => startsWithChars w (c :: rest) || containsSubAux w rest

/-- Substring occurrence test. -/
def containsSub (w s : List Char) : Bool :=
  containsSubAux w s

/-- Does the response body match the unsupported-model pattern of
route.ts line 78 (after ASCII case folding for the `i` flag)? -/
def bodyMatchesUnsupported (body : List Char) : Bool :=
  containsSub ("invalid_model".toList) (lowerChars body) ||
    containsSub ("model_not_found".toList) (lowerChars body) ||
    containsSub ("unsupported_model".toList) (lowerChars body)

/-- Source `maxAttempts` of route.ts line 34. -/
def maxAttempts : Nat := 3

/-- The final outcome of the route handler with respect to the upstream
loop (route.ts lines 110-158; JSON-shape errors of the success path after
an ok response are outside the loop and not modelled). -/
inductive RouteOutcome where
  /-- An ok upstream response: the route returns the token and model. -/
  | success (model : RTModel)
  /-- A non-ok upstream response left after the loop: the route surfaces
  an error JSON with that upstream status (lines 122-133). -/
  | httpError (status : Nat)
  /-- Every attempt threw: the route surfaces a 500 error (lines 110-120). -/
  | networkError
deriving DecidableEq, Repr

/-- Trace of one run of the retry loop: the model used by each fetch in
order, the sleeps performed as (attempt, milliseconds) pairs, and the
final outcome. -/
structure RouteTrace where
  calls : List RTModel
  sleeps : List (Nat × Nat)
  outcome : RouteOutcome
deriving DecidableEq, Repr

/-- Source `backoffMs` of route.ts lines 64 and 106. -/
def backoffMs (attempt : Nat) : Nat := 250 * 2 ^ (attempt - 1)

/-- The retry loop of route.ts lines 38-108.  `left` is the number of
attempts still allowed including the current one (`maxAttempts - attempt + 1`),
so `left = 1` is the last attempt.  Branches, in source order: a thrown
fetch breaks on the last attempt and otherwise sleeps and retries (lines
52-67); an ok response breaks with success (line 69); a 4xx response with
an unsupported-model body while still on the cheap default model switches
to the fallback model and continues without sleeping (lines 74-88); a 429
or 5xx response that is not on its last attempt sleeps and retries, and
everything else breaks with the response left as the final non-ok response
(lines 90-107). -/
def routeLoop (env : Nat → RTModel → FetchResult) :
    Nat → Nat → RTModel → RouteTrace
  | 0, _, _ => { calls := [], sleeps := [], outcome := .networkError }
  | left + 1, attempt, model =>
    let isLast := left = 0
    match env attempt model with
    | .netError =>
      if isLast then { calls := [model], sleeps := [], outcome := .networkError }
      else
        let t := routeLoop env left (attempt + 1) model
        { calls := model :: t.calls, sleeps := (attempt, backoffMs attempt) :: t.sleeps
          outcome := t.outcome }
    | .resp status body =>
      if 200 ≤ status ∧ status < 300 then
        { calls := [model], sleeps := [], outcome := .success model }
      else if 400 ≤ status ∧ status < 500 ∧ model = cheapDefaultModel ∧
          bodyMatchesUnsupported body = true then
        if isLast then { calls := [model], sleeps := [], outcome := .httpError status }
        else
          let t := routeLoop env left (attempt + 1) fallbackModel
          { calls := model :: t.calls, sleeps := t.sleeps, outcome := t.outcome }
      else
        let retryable := status = 429 ∨ 500 ≤ status
        if ¬retryable ∨ isLast then
          { calls := [model], sleeps := [], outcome := .httpError status }
        else
          let t := routeLoop env left (attempt + 1) model
          { calls := model :: t.calls, sleeps := (attempt, backoffMs attempt) :: t.sleeps
            outcome := t.outcome }

/-- One run of the `POST` handler's upstream loop, starting at attempt 1
with the cheap default model (route.ts lines 30, 38). -/
def routeRun (env : Nat → RTModel → FetchResult) : RouteTrace :=
  routeLoop env maxAttempts 1 cheapDefaultModel

/-! ## Helper lemmas about the retry loop -/

/-- The loop performs at most `left` fetches. -/
theorem routeLoop_calls_length (env : Nat → RTModel → FetchResult) :
    ∀ (left attempt : Nat) (model : RTModel),
      (routeLoop env left attempt model).calls.length ≤ left := by
  intro left
  induction left with
  | zero => intro a m; simp [routeLoop]
  | succ n ih =>
    intro a m
    unfold routeLoop
    cases env a m with
    | netError =>
      dsimp only
      split_ifs
      · simp only [List.length_singleton]; omega
      · have := ih (a + 1) m
        simp only [List.length_cons]
        omega
    | resp status body =>
      dsimp only
      split_ifs
      · simp only [List.length_singleton]; omega
      · simp only [List.length_singleton]; omega
      · have := ih (a + 1) fallbackModel
        simp only [List.length_cons]
        omega
      · simp only [List.length_singleton]; omega
      · have := ih (a + 1) m
        simp only [List.length_cons]
        omega

/-- Every sleep of the loop is the exponential backoff of its attempt
index, and its attempt lies strictly inside the attempt window (no sleep
after the last attempt). -/
theorem routeLoop_sleeps_spec (env : Nat → RTModel → FetchResult) :
    ∀ (left attempt : Nat) (model : RTModel) (p : Nat × Nat),
      p ∈ (routeLoop env left attempt model).sleeps →
      p.2 = backoffMs p.1 ∧ attempt ≤ p.1 ∧ p.1 + 1 < attempt + left := by
  intro left
  induction left with
  | zero => intro a m p hp; simp [routeLoop] at hp
  | succ n ih =>
    intro a m p hp
    unfold routeLoop at hp
    cases henv : env a m with
    | netError =>
      rw [henv] at hp
      dsimp only at hp
      split_ifs at hp with h1
      · simp at hp
      · simp only [List.mem_cons] at hp
        rcases hp with hp | hp
        · subst hp; refine ⟨rfl, le_refl _, ?_⟩; omega
        · obtain ⟨h2, h3, h4⟩ := ih (a + 1) m p hp
          exact ⟨h2, by omega, by omega⟩
    | resp status body =>
      rw [henv] at hp
      dsimp only at hp
      split_ifs at hp with h1 h2 h3 h4
      · simp at hp
      · simp at hp
      · obtain ⟨h5, h6, h7⟩ := ih (a + 1) fallbackModel p hp
        exact ⟨h5, by omega, by omega⟩
      · simp at hp
      · simp only [List.mem_cons] at hp
        rcases hp with hp | hp
        · subst hp; refine ⟨rfl, le_refl _, ?_⟩; omega
        · obtain ⟨h5, h6, h7⟩ := ih (a + 1) m p hp
          exact ⟨h5, by omega, by omega⟩

/-- The first fetch of a loop with at least one attempt uses the model the
loop was entered with. -/
theorem routeLoop_calls_head (env : Nat → RTModel → FetchResult)
    (left attempt : Nat) (model : RTModel) :
    (routeLoop env (left + 1) attempt model).calls.head? = some model := by
  unfold routeLoop
  cases env attempt model with
  | netError => dsimp only; split_ifs <;> rfl
  | resp status body => dsimp only; split_ifs <;> rfl

/-- A loop with at least one attempt performs at least one fetch. -/
theorem routeLoop_calls_ne_nil (env : Nat → RTModel → FetchResult)
    (left attempt : Nat) (model : RTModel) :
    (routeLoop env (left + 1) attempt model).calls ≠ [] := by
  intro hnil
  have := routeLoop_calls_head env left attempt model
  rw [hnil] at this
  simp at this

/-- Once the loop is on the fallback model it never leaves it: the guard
of the fallback branch requires the current model to be the cheap default
model. -/
theorem routeLoop_fallback_stays (env : Nat → RTModel → FetchResult) :
    ∀ (left attempt : Nat) (m : RTModel),
      m ∈ (routeLoop env left attempt fallbackModel).calls → m = fallbackModel := by
  intro left
  induction left with
  | zero => intro a m hm; simp [routeLoop] at hm
  | succ n ih =>
    intro a m hm
    unfold routeLoop at hm
    cases henv : env a fallbackModel with
    | netError =>
      rw [henv] at hm
      dsimp only at hm
      split_ifs at hm <;> simp only [List.mem_cons, List.mem_singleton] at hm
      · simpa using hm
      · rcases hm with hm | hm
        · exact hm
        · exact ih (a + 1) m hm
    | resp status body =>
      rw [henv] at hm
      dsimp only at hm
      split_ifs at hm with h1 h2 h3 h4 <;>
        simp only [List.mem_cons, List.mem_singleton] at hm
      · simpa using hm
      · simp [cheapDefaultModel, fallbackModel] at h2
      · simp [cheapDefaultModel, fallbackModel] at h2
      · simpa using hm
      · rcases hm with hm | hm
        · exact hm
        · exact ih (a + 1) m hm

/-- The models fetched by a loop entered on the cheap default model form a
block of cheap fetches followed by a block of fallback fetches: the model
switches at most once and never switches back. -/
theorem routeLoop_calls_shape (env : Nat → RTModel → FetchResult) :
    ∀ (left attempt : Nat),
      ∃ k l, (routeLoop env left attempt cheapDefaultModel).calls =
        List.replicate k cheapDefaultModel ++ List.replicate l fallbackModel := by
  intro left
  induction left with
  | zero => exact fun a => ⟨0, 0, by simp [routeLoop]⟩
  | succ n ih =>
    intro a
    have hfb : ∀ a2, ∃ l, (routeLoop env n a2 fallbackModel).calls =
        List.replicate l fallbackModel := by
      intro a2
      refine ⟨(routeLoop env n a2 fallbackModel).calls.length, ?_⟩
      exact List.eq_replicate_of_mem (fun b hb => routeLoop_fallback_stays env n a2 b hb)
    unfold routeLoop
    cases henv : env a cheapDefaultModel with
    | netError =>
      dsimp only
      split_ifs
      · exact ⟨1, 0, by simp⟩
      · obtain ⟨k, l, hkl⟩ := ih (a + 1)
        exact ⟨k + 1, l, by simp [hkl, List.replicate_succ]⟩
    | resp status body =>
      dsimp only
      split_ifs
      · exact ⟨1, 0, by simp⟩
      · exact ⟨1, 0, by simp⟩
      · obtain ⟨l, hl⟩ := hfb (a + 1)
        exact ⟨1, l, by simp [hl, List.replicate_succ]⟩
      · exact ⟨1, 0, by simp⟩
      · obtain ⟨k, l, hkl⟩ := ih (a + 1)
        exact ⟨k + 1, l, by simp [hkl, List.replicate_succ]⟩

/-- Claim C8: the credential request performs at most 3 fetch attempts in
total; every sleep between attempts is the exponential backoff
250 ms times 2 to the attempt index minus one, and only attempts 1 and 2
are ever followed by a sleep; and the response classification is: a 4xx
response with an unsupported-model body on the cheap default model is
fallback-eligible (the next fetch uses the fallback model, with no backoff
sleep in between), a 429 or 5xx response is retried on the same model
after the backoff sleep, a thrown fetch is likewise retried after the
backoff sleep, and every other non-ok response is terminal: the run stops
at one fetch and surfaces that status. -/
theorem credential_retry_policy :
    (∀ env : Nat → RTModel → FetchResult, (routeRun env).calls.length ≤ 3)
    ∧ (∀ (env : Nat → RTModel → FetchResult) (p : Nat × Nat),
      p ∈ (routeRun env).sleeps → p.2 = 250 * 2 ^ (p.1 - 1) ∧ 1 ≤ p.1 ∧ p.1 ≤ 2)
    ∧ (∀ (env : Nat → RTModel → FetchResult) (status : Nat) (body : List Char),
      env 1 cheapDefaultModel = .resp status body →
      400 ≤ status → status < 500 → bodyMatchesUnsupported body = true →
      (routeRun env).calls.take 2 = [cheapDefaultModel, fallbackModel]
        ∧ ∀ p ∈ (routeRun env).sleeps, 2 ≤ p.1)
    ∧ (∀ (env : Nat → RTModel → FetchResult) (status : Nat) (body : List Char),
      env 1 cheapDefaultModel = .resp status body →
      (status = 429 ∨ 500 ≤ status) →
      ¬(400 ≤ status ∧ status < 500 ∧ bodyMatchesUnsupported body = true) →
      (routeRun env).calls.take 2 = [cheapDefaultModel, cheapDefaultModel]
        ∧ (routeRun env).sleeps.head? = some (1, 250))
    ∧ (∀ (env : Nat → RTModel → FetchResult) (status : Nat) (body : List Char),
      env 1 cheapDefaultModel = .resp status body →
      ¬(200 ≤ status ∧ status < 300) →
      ¬(status = 429 ∨ 500 ≤ status) →
      ¬(400 ≤ status ∧ status < 500 ∧ bodyMatchesUnsupported body = true) →
      routeRun env = { calls := [cheapDefaultModel], sleeps := []
                       outcome := .httpError status })
    ∧ (∀ env : Nat → RTModel → FetchResult,
      env 1 cheapDefaultModel = .netError →
      (routeRun env).calls.take 2 = [cheapDefaultModel, cheapDefaultModel]
        ∧ (routeRun env).sleeps.head? = some (1, 250)) := by
  refine ⟨?_, ?_, ?_, ?_, ?_, ?_⟩
  · intro env
    exact routeLoop_calls_length env 3 1 cheapDefaultModel
  · intro env p hp
    obtain ⟨h1, h2, h3⟩ := routeLoop_sleeps_spec env 3 1 cheapDefaultModel p hp
    exact ⟨h1, h2, by omega⟩
  · intro env status body h h4 h5 hb
    have hrw : routeRun env = routeLoop env (2 + 1) 1 cheapDefaultModel := rfl
    rw [hrw, routeLoop, h]
    dsimp only
    rw [if_neg (by omega), if_pos ⟨h4, h5, rfl, hb⟩, if_neg (by omega)]
    constructor
    · have hh := routeLoop_calls_head env 1 2 fallbackModel
      cases hc : (routeLoop env (1 + 1) 2 fallbackModel).calls with
      | nil => rw [hc] at hh; simp at hh
      | cons x xs =>
        rw [hc] at hh
        simp at hh
        subst hh
        simp [hc]
    · intro p hp
      exact (routeLoop_sleeps_spec env 2 2 fallbackModel p hp).2.1
  · intro env status body h hr hnb
    have hrw : routeRun env = routeLoop env (2 + 1) 1 cheapDefaultModel := rfl
    rw [hrw, routeLoop, h]
    dsimp only
    rw [if_neg (by omega), if_neg (fun hx => hnb ⟨hx.1, hx.2.1, hx.2.2.2⟩),
      if_neg (by simp only [not_or, not_not]; exact ⟨fun hx => hr.elim hx.1 hx.2, by omega⟩)]
    constructor
    · have hh := routeLoop_calls_head env 1 2 cheapDefaultModel
      cases hc : (routeLoop env (1 + 1) 2 cheapDefaultModel).calls with
      | nil => rw [hc] at hh; simp at hh
      | cons x xs =>
        rw [hc] at hh
        simp at hh
        subst hh
        simp [hc]
    · rfl
  · intro env status body h hno hnr hnb
    have hrw : routeRun env = routeLoop env (2 + 1) 1 cheapDefaultModel := rfl
    rw [hrw, routeLoop, h]
    dsimp only
    rw [if_neg hno, if_neg (fun hx => hnb ⟨hx.1, hx.2.1, hx.2.2.2⟩), if_pos (Or.inl hnr)]
  · intro env h
    have hrw : routeRun env = routeLoop env (2 + 1) 1 cheapDefaultModel := rfl
    rw [hrw, routeLoop, h]
    dsimp only
    rw [if_neg (by omega)]
    constructor
    · have hh := routeLoop_calls_head env 1 2 cheapDefaultModel
      cases hc : (routeLoop env (1 + 1) 2 cheapDefaultModel).calls with
      | nil => rw [hc] at hh; simp at hh
      | cons x xs =>
        rw [hc] at hh
        simp at hh
        subst hh
        simp [hc]
    · rfl

/-- Witness for claim C8: a 404 response with a body that does not match
the unsupported-model pattern is terminal: one fetch, no sleep, and the
404 status surfaced. -/
theorem credential_retry_policy_witness :
    routeRun (fun _ _ => FetchResult.resp 404 ("nope".toList)) =
      { calls := [cheapDefaultModel], sleeps := []
        outcome := RouteOutcome.httpError 404 } :=
  credential_retry_policy.2.2.2.2.1 (fun _ _ => FetchResult.resp 404 ("nope".toList))
    404 ("nope".toList) rfl (by omega) (by omega) (by decide)

/-- Claim C2: the credential-fetch fallback is single-shot.  For every
sequence of endpoint responses, the models fetched form a block of
cheap-default fetches followed by a block of fallback fetches — the run
switches models at most once and never switches back.  Moreover, if the
endpoint persistently yields 4xx responses whose bodies match the
unsupported-model pattern, the run surfaces an error carrying one of those
4xx statuses (the fallback model's failure is not retried into another
model switch). -/
theorem single_shot_fallback :
    (∀ env : Nat → RTModel → FetchResult,
      ∃ k l, (routeRun env).calls =
        List.replicate k cheapDefaultModel ++ List.replicate l fallbackModel)
    ∧ (∀ env : Nat → RTModel → FetchResult,
      (∀ (n : Nat) (m : RTModel), ∃ status body, env n m = .resp status body ∧
        400 ≤ status ∧ status < 500 ∧ bodyMatchesUnsupported body = true) →
      ∃ status, (routeRun env).outcome = .httpError status ∧ 400 ≤ status ∧ status < 500) := by
  constructor
  · intro env
    exact routeLoop_calls_shape env 3 1
  · intro env henv
    obtain ⟨s1, b1, h1, h14, h15, h1b⟩ := henv 1 cheapDefaultModel
    have hrw : routeRun env = routeLoop env (2 + 1) 1 cheapDefaultModel := rfl
    rw [hrw, routeLoop, h1]
    dsimp only
    rw [if_neg (by omega), if_pos ⟨h14, h15, rfl, h1b⟩, if_neg (by omega)]
    obtain ⟨s2, b2, h2, h24, h25, h2b⟩ := henv 2 fallbackModel
    have hrw2 : routeLoop env 2 2 fallbackModel = routeLoop env (1 + 1) 2 fallbackModel := rfl
    rw [hrw2, routeLoop, h2]
    dsimp only
    rw [if_neg (by omega),
      if_neg (fun hx => by simpa [fallbackModel, cheapDefaultModel] using hx.2.2.1)]
    by_cases h429 : s2 = 429
    · rw [if_neg (by simp only [not_or, not_not]; exact ⟨fun hx => hx.1 h429, by omega⟩)]
      obtain ⟨s3, b3, h3, h34, h35, h3b⟩ := henv 3 fallbackModel
      have hrw3 : routeLoop env 1 3 fallbackModel = routeLoop env (0 + 1) 3 fallbackModel := rfl
      rw [hrw3, routeLoop, h3]
      dsimp only
      rw [if_neg (by omega),
        if_neg (fun hx => by simpa [fallbackModel, cheapDefaultModel] using hx.2.2.1),
        if_pos (Or.inr rfl)]
      exact ⟨s3, rfl, h34, h35⟩
    · rw [if_pos (Or.inl (by simp only [not_or]; exact ⟨h429, by omega⟩))]
      exact ⟨s2, rfl, h24, h25⟩

/-- Witness for claim C2: an endpoint that always answers 404 with body
model_not_found drives the run to a surfaced 4xx error after the single
fallback switch. -/
theorem single_shot_fallback_witness :
    (routeRun (fun _ _ => FetchResult.resp 404 ("model_not_found".toList))).outcome =
      RouteOutcome.httpError 404 := by
  have h := single_shot_fallback.2 (fun _ _ => FetchResult.resp 404 ("model_not_found".toList))
    (fun _ _ => ⟨404, "model_not_found".toList, rfl, by omega, by omega, by decide⟩)
  decide

/-! ## Transport session state, teardown, and connect

Embedding of the resource-holding state of `AssistantShell`: each browser
resource held through a ref is an `Option Nat` handle (`none` when the ref
is null).  `releaseOps` counts the release operations actually performed
on a live resource (each guarded `if (ref.current) { release; ref.current
= null }` block of the source increments it exactly when the ref was
non-null), which makes double releases observable.  `tokenFetches` and
`sdpFetches` count outbound requests. -/

/-- Source `RealtimeStatus` of `AssistantShell.tsx` line 7. -/
inductive RtStatus where
  | idle
  | connecting
  | connected
  | error
deriving DecidableEq, Repr

/-- The session-relevant mutable state of the `AssistantShell` component. -/
structure ShellState where
  /-- Source `realtimeAttemptRef` (line 62). -/
  attemptCur : Nat
  /-- Source `realtimeStatus` (line 50). -/
  rtStatus : RtStatus
  /-- Source `open` / `openRef` (lines 21-22). -/
  openF : Bool
  /-- Source `isRecording` (line 45). -/
  isRecording : Bool
  /-- Source `vadRafRef` (line 31). -/
  vadRaf : Option Nat
  /-- Source `audioContextRef` (line 29). -/
  audioCtx : Option Nat
  /-- Source `micMeterAudioCtxRef` and its analyser/frame handle (lines 75-77). -/
  micMeterCtx : Option Nat
  /-- Source `rtcDataRef` (line 37). -/
  dataCh : Option Nat
  /-- Source `rtcStatsIntervalRef` (line 39). -/
  statsInterval : Option Nat
  /-- Source `remoteAudioRafRef` (line 43). -/
  remoteRaf : Option Nat
  /-- Source `remoteAudioCtxRef` and its analyser (lines 41-42). -/
  remoteCtx : Option Nat
  /-- Source `rtcRef` (line 36). -/
  rtc : Option Nat
  /-- Source `rtcRemoteAudioRef` (line 38). -/
  remoteAudioEl : Option Nat
  /-- Source `mediaRecorderRef` (line 25). -/
  mediaRecorder : Option Nat
  /-- Source `audioStreamRef`, the local microphone stream (line 26). -/
  audioStream : Option Nat
  /-- Source `currentAudioRef` (line 28). -/
  currentAudio : Option Nat
  /-- Source `micMonitorStreamRef` (line 79). -/
  monitorStream : Option Nat
  /-- The delayed monitor-resume timer scheduled at lines 629-631. -/
  resumeScheduled : Bool
  /-- Count of release operations performed on live resources. -/
  releaseOps : Nat
  /-- Count of credential (token) fetches issued (line 673). -/
  tokenFetches : Nat
  /-- Count of SDP signaling fetches issued (line 1009). -/
  sdpFetches : Nat
deriving DecidableEq, Repr

/-- One for a live handle, zero for a null ref: the contribution of one
guarded release block to `releaseOps`. -/
def relCount (o : Option Nat) : Nat :=
  if o.isSome then 1 else 0

/-- Source `closeAssistant` (`AssistantShell.tsx` lines 533-632): bumps the
attempt counter (534); cancels the VAD frame (535-538); closes the audio
context (542-547); stops the mic meter (550); closes the data channel
(552-557); clears the stats interval (559-562); cancels the remote audio
frame, disconnects and closes the remote audio context (564-579); closes
the peer connection (588-593); pauses and drops the remote audio element
(595-600); resets status to idle (601); stops the media recorder
(604-607); stops the microphone tracks (609-616); clears recording state
(617-618); pauses the playback audio (620-625); closes the overlay (627);
and schedules the delayed monitor resume (629-631).  Every release is
guarded on the ref being non-null, so `releaseOps` grows by the number of
live handles.  The monitor stream itself is not touched by teardown. -/
def closeAssistant (s : ShellState) : ShellState :=
  { s with
    attemptCur := s.attemptCur + 1
    rtStatus := .idle
    openF := false
    isRecording := false
    vadRaf := none
    audioCtx := none
    micMeterCtx := none
    dataCh := none
    statsInterval := none
    remoteRaf := none
    remoteCtx := none
    rtc := none
    remoteAudioEl := none
    mediaRecorder := none
    audioStream := none
    currentAudio := none
    resumeScheduled := true
    releaseOps := s.releaseOps + relCount s.vadRaf + relCount s.audioCtx +
      relCount s.micMeterCtx + relCount s.dataCh + relCount s.statsInterval +
      relCount s.remoteRaf + relCount s.remoteCtx + relCount s.rtc +
      relCount s.remoteAudioEl + relCount s.mediaRecorder + relCount s.audioStream +
      relCount s.currentAudio }

/-- All releasable handles of the session are null. -/
def resourcesFree (s : ShellState) : Prop :=
  s.vadRaf = none ∧ s.audioCtx = none ∧ s.micMeterCtx = none ∧ s.dataCh = none ∧
    s.statsInterval = none ∧ s.remoteRaf = none ∧ s.remoteCtx = none ∧ s.rtc = none ∧
    s.remoteAudioEl = none ∧ s.mediaRecorder = none ∧ s.audioStream = none ∧
    s.currentAudio = none

/-- An environment step at an await point of `startRealtimeSession`: when
the flag is set, a `closeAssistant` (or the teardown prefix of a newer
connect, which performs the same `realtimeAttemptRef` bump) ran while the
awaited promise was pending. -/
def awaitPoint (b : Bool) (s : ShellState) : ShellState :=
  if b then closeAssistant s else s

/-- Source `startRealtimeSession` (`AssistantShell.tsx` lines 654-1112) on the
success path of every external call, as a function of the schedule `env`
of close interjections at its seven await points: 0 the token fetch (line
673), 1 the token JSON parse (line 690), 2 the microphone `getUserMedia`
(line 971; the device id is assumed selected so the enumerate branch of
lines 954-966 is skipped), 3 offer creation and local description (lines
1004-1005), 4 the SDP exchange (line 1009), 5 the answer text (line 1028),
and 6 the remote description application (line 1031).  The source guards
with `realtimeAttemptRef.current !== attemptId` after awaits 0, 3, 4 and 5
(lines 679, 1007, 1018, 1029; the latter three also compare `rtcRef` and
the peer-connection liveness) and after the synchronous block following
await 1 (line 697) — but only after `rtcRef.current = pc` has already run
(line 695), and the stale peer connection is closed there without clearing
the ref.  No guard runs between the `getUserMedia` of await 2 and the
offer step: the mic stream is stored, the monitor stopped and the meter
started unconditionally (lines 979-1002).  No guard follows await 6: the
stats interval starts unconditionally (lines 1037-1064). -/
def startRealtimeSession (env : Fin 7 → Bool) (pcId micId : Nat) (s0 : ShellState) :
    ShellState :=
  -- line 655: duplicate-connect guard
  if s0.rtStatus = .connecting ∨ s0.rtStatus = .connected then s0 else
  -- lines 659-660 and 670-671
  let attemptId := s0.attemptCur + 1
  let s1 : ShellState := { s0 with attemptCur := attemptId, rtStatus := .connecting }
  -- await 0: token fetch (line 673)
  let s2 := awaitPoint (env 0) { s1 with tokenFetches := s1.tokenFetches + 1 }
  -- line 679: attempt guard
  if s2.attemptCur ≠ attemptId then s2 else
  -- await 1: token JSON (line 690)
  let s3 := awaitPoint (env 1) s2
  -- lines 694-695: peer connection created and stored before the guard
  let s4 : ShellState := { s3 with rtc := some pcId }
  -- lines 697-702: guard; a stale pc is closed but the ref keeps pointing at it
  if s4.attemptCur ≠ attemptId then { s4 with releaseOps := s4.releaseOps + 1 } else
  -- lines 810-811: data channel created and stored
  let s5 : ShellState := { s4 with dataCh := some pcId }
  -- await 2: getUserMedia (line 971) — no guard before applying the result
  let s6 := awaitPoint (env 2) s5
  -- line 979: mic stream stored
  let s7 : ShellState := { s6 with audioStream := some micId }
  -- line 1001: stopMicMonitor
  let s8 : ShellState := { s7 with
    monitorStream := none
    releaseOps := s7.releaseOps + relCount s7.monitorStream }
  -- line 1002: startMicMeter (stopMicMeter then a fresh context)
  let s9 : ShellState := { s8 with
    micMeterCtx := some micId
    releaseOps := s8.releaseOps + relCount s8.micMeterCtx }
  -- await 3: createOffer / setLocalDescription (lines 1004-1005)
  let s10 := awaitPoint (env 3) s9
  -- line 1007: attempt, pc-liveness and ref guard
  if s10.attemptCur ≠ attemptId ∨ s10.rtc ≠ some pcId then s10 else
  -- await 4: SDP exchange (line 1009)
  let s11 := awaitPoint (env 4) { s10 with sdpFetches := s10.sdpFetches + 1 }
  -- line 1018: guard
  if s11.attemptCur ≠ attemptId ∨ s11.rtc ≠ some pcId then s11 else
  -- await 5: answer text (line 1028)
  let s12 := awaitPoint (env 5) s11
  -- line 1029: guard
  if s12.attemptCur ≠ attemptId ∨ s12.rtc ≠ some pcId then s12 else
  -- await 6: setRemoteDescription (line 1031)
  let s13 := awaitPoint (env 6) s12
  -- lines 1037-1064: stats interval started with no further guard
  { s13 with statsInterval := some 1 }

/-- The idle initial state: no resources held, counters at zero. -/
def initShell : ShellState :=
  { attemptCur := 0, rtStatus := .idle, openF := false, isRecording := false
    vadRaf := none, audioCtx := none, micMeterCtx := none, dataCh := none
    statsInterval := none, remoteRaf := none, remoteCtx := none, rtc := none
    remoteAudioEl := none, mediaRecorder := none, audioStream := none
    currentAudio := none, monitorStream := none, resumeScheduled := false
    releaseOps := 0, tokenFetches := 0, sdpFetches := 0 }

/-- A schedule that closes the session during exactly one await point. -/
def closeAt (i : Fin 7) : Fin 7 → Bool :=
  fun j => j = i

/-- The connect run left no session resources behind: every handle it may
have created is null, the status is back to idle, and the open flag is
down. -/
def cleanedUp (s : ShellState) : Bool :=
  s.audioStream = none && s.micMeterCtx = none && s.rtc = none && s.dataCh = none &&
    s.statsInterval = none && s.rtStatus = .idle && s.openF = false

/-- Claim C9: teardown is idempotent.  Conjuncts: teardown always leaves
the status Idle; a second consecutive `closeAssistant` changes nothing but
the attempt counter bump it always performs — in particular every resource
handle and the count of performed release operations are identical, so no
timer, channel, peer session, audio context or microphone track is
released twice; and a `closeAssistant` on a state already holding no
resources performs zero release operations. -/
theorem close_idempotent (s : ShellState) :
    ((closeAssistant s).rtStatus = .idle)
    ∧ closeAssistant (closeAssistant s) =
      { closeAssistant s with attemptCur := (closeAssistant s).attemptCur + 1 }
    ∧ (closeAssistant (closeAssistant s)).releaseOps = (closeAssistant s).releaseOps
    ∧ (resourcesFree s → (closeAssistant s).releaseOps = s.releaseOps) := by
  refine ⟨rfl, ?_, ?_, ?_⟩
  · simp [closeAssistant, relCount]
  · simp [closeAssistant, relCount]
  · intro h
    obtain ⟨h1, h2, h3, h4, h5, h6, h7, h8, h9, h10, h11, h12⟩ := h
    simp [closeAssistant, relCount, h1, h2, h3, h4, h5, h6, h7, h8, h9, h10, h11, h12]

/-- Witness for claim C9: closing from the pristine idle state performs no
release operation at all. -/
theorem close_idempotent_witness :
    (closeAssistant initShell).releaseOps = initShell.releaseOps :=
  (close_idempotent initShell).2.2.2
    ⟨rfl, rfl, rfl, rfl, rfl, rfl, rfl, rfl, rfl, rfl, rfl, rfl⟩

/-- Counterexample for claim C3: a close that lands during the microphone
`getUserMedia` await supersedes the attempt (the attempt counter has moved
past the attempt id 1), yet the stale step still stores its microphone
stream and starts the mic meter — the step's result is applied without any
attempt-id comparison, modifying session state after supersession instead
of being discarded. -/
theorem stale_mic_not_discarded_counterexample :
    (startRealtimeSession (closeAt 2) 5 6 initShell).attemptCur = 2
    ∧ (startRealtimeSession (closeAt 2) 5 6 initShell).audioStream = some 6
    ∧ (startRealtimeSession (closeAt 2) 5 6 initShell).micMeterCtx = some 6
    ∧ (startRealtimeSession (closeAt 2) 5 6 initShell).rtStatus = .idle := by
  decide

/-- Claim C3 (amended): the token-fetch, offer, SDP-exchange and
answer-text steps of `connect()` compare the attempt id before applying
their results, so a close landing during any of those awaits leaves the
session fully cleaned up; but the JSON-parse step stores the new peer
connection into the session ref before its guard runs (leaving a stale
ref behind), the microphone-acquisition step applies its stream and
starts the meter with no guard at all, and the remote-description step is
followed by an unguarded stats-interval start — a close landing during
those awaits leaves stale session state behind. -/
theorem attempt_guard_discards :
    cleanedUp (startRealtimeSession (closeAt 0) 5 6 initShell) = true
    ∧ cleanedUp (startRealtimeSession (closeAt 3) 5 6 initShell) = true
    ∧ cleanedUp (startRealtimeSession (closeAt 4) 5 6 initShell) = true
    ∧ cleanedUp (startRealtimeSession (closeAt 5) 5 6 initShell) = true
    ∧ cleanedUp (startRealtimeSession (closeAt 1) 5 6 initShell) = false
    ∧ cleanedUp (startRealtimeSession (closeAt 2) 5 6 initShell) = false
    ∧ cleanedUp (startRealtimeSession (closeAt 6) 5 6 initShell) = false := by
  decide

/-- Claim C10: a `connect()` issued while the session status is already
Connecting or Connected returns at the very first guard: the state is
returned unchanged, so no credential fetch is issued (the token-fetch
counter is part of the state), no peer connection is created, and no
session field is modified — a wake trigger heard during an active session
cannot start a second concurrent session. -/
theorem duplicate_connect_guard (s : ShellState) (env : Fin 7 → Bool) (pc mic : Nat)
    (h : s.rtStatus = .connecting ∨ s.rtStatus = .connected) :
    startRealtimeSession env pc mic s = s := by
  unfold startRealtimeSession
  rw [if_pos h]

/-- Witness for claim C10: connecting while already connecting changes
nothing. -/
theorem duplicate_connect_guard_witness :
    startRealtimeSession (fun _ => false) 5 6 { initShell with rtStatus := .connecting } =
      { initShell with rtStatus := .connecting } :=
  duplicate_connect_guard { initShell with rtStatus := .connecting }
    (fun _ => false) 5 6 (Or.inl rfl)

/-! ## Wake-word listener error handling

Embedding of `rec.onerror` (`AssistantShell.tsx` lines 370-389) and
`rec.onend` (lines 391-405).  The recognizer instance is created once and
its handlers close over the `wakeWordEnabled` value of the render that
created them; the handler reads that captured value, passed here as the
`wakeWordEnabled` argument. -/

/-- Source `wakeStatus` of `AssistantShell.tsx` line 66. -/
inductive WakeStatus where
  | idle
  | starting
  | listening
  | error
deriving DecidableEq, Repr

/-- State touched by the recognizer lifecycle handlers. -/
structure WakeListenerState where
  /-- Source `wakeStatus` (line 66). -/
  wakeStatus : WakeStatus
  /-- Source `wakeLastError` (line 68). -/
  lastError : List Char
  /-- Source `speechRecShouldRunRef` (line 60). -/
  shouldRun : Bool
  /-- Source `speechRecIsRunningRef` (line 61). -/
  recRunning : Bool
  /-- A 350 ms delayed restart has been scheduled by `onend`. -/
  restartScheduled : Bool
deriving DecidableEq, Repr

/-- The benign error name tested at line 373. -/
def noSpeechE : List Char := "no-speech".toList

/-- Source `rec.onerror` (lines 370-389): a no-speech error keeps the status
Listening and clears the last error; every other error sets the status to
Error and records the reason (the log calls are line 372 and 382).  In
both cases the handler then sets the should-run flag to the (captured)
`wakeWordEnabled` value (line 385) and stops the recognizer (line 387),
which will fire `onend`. -/
def onerrorStep (err : List Char) (wakeWordEnabled : Bool) (s : WakeListenerState) :
    WakeListenerState :=
  let s1 :=
    if err = noSpeechE then { s with wakeStatus := .listening, lastError := [] }
    else { s with wakeStatus := .error, lastError := err }
  { s1 with shouldRun := wakeWordEnabled }

/-- Source `rec.onend` (lines 391-405): the running flag drops; if the should-run
flag is down nothing further happens, otherwise a restart is scheduled
after `restartDelayMs`. -/
def onendStep (s : WakeListenerState) : WakeListenerState :=
  let s1 := { s with recRunning := false }
  if !s1.shouldRun then s1 else { s1 with restartScheduled := true }

/-- The delay of the scheduled restart (line 404). -/
def restartDelayMs : Nat := 350

/-- Counterexample for claim C7: a permission error (not-allowed) while
the captured wake-word-enabled flag is true leaves the should-run flag up,
so the termination that the handler itself provokes schedules another
automatic restart — the error does not stop the should-run flag as the
claim states. -/
theorem recognizer_error_restart_counterexample :
    (onendStep (onerrorStep ("not-allowed".toList) true
        { wakeStatus := .listening, lastError := [], shouldRun := true
          recRunning := true, restartScheduled := false })).shouldRun = true
    ∧ (onendStep (onerrorStep ("not-allowed".toList) true
        { wakeStatus := .listening, lastError := [], shouldRun := true
          recRunning := true, restartScheduled := false })).restartScheduled = true
    ∧ (onerrorStep ("not-allowed".toList) true
        { wakeStatus := .listening, lastError := [], shouldRun := true
          recRunning := true, restartScheduled := false }).wakeStatus = .error := by
  decide

/-- Claim C7 (amended): a no-speech recognizer error leaves the status at
Listening with the last error cleared, and every other recognizer error
sets the status to Error and records the reason; in both cases the handler
sets the should-run flag to the captured wake-word-enabled value rather
than stopping it, so after a non-benign error the delayed restart cycle
still runs whenever wake listening is (still) enabled, and stops only when
it has been disabled.  The termination handler schedules a restart exactly
when the should-run flag is up. -/
theorem recognizer_error_policy (err : List Char) (wwe : Bool) (s : WakeListenerState) :
    (err = noSpeechE →
      (onerrorStep err wwe s).wakeStatus = .listening ∧ (onerrorStep err wwe s).lastError = [])
    ∧ (err ≠ noSpeechE →
      (onerrorStep err wwe s).wakeStatus = .error ∧ (onerrorStep err wwe s).lastError = err)
    ∧ (onerrorStep err wwe s).shouldRun = wwe
    ∧ (onendStep s).recRunning = false
    ∧ (onendStep s).restartScheduled = (s.restartScheduled || s.shouldRun) := by
  refine ⟨?_, ?_, ?_, ?_, ?_⟩
  · intro h
    simp [onerrorStep, h]
  · intro h
    simp [onerrorStep, h]
  · by_cases h : err = noSpeechE <;> simp [onerrorStep, h]
  · unfold onendStep
    dsimp only
    split_ifs <;> rfl
  · unfold onendStep
    dsimp only
    cases hr : s.shouldRun <;> simp [hr]

/-- Witness for the amended claim C7: a no-speech error keeps the listener
Listening. -/
theorem recognizer_error_policy_witness :
    (onerrorStep noSpeechE true
      { wakeStatus := .listening, lastError := [], shouldRun := true
        recRunning := true, restartScheduled := false }).wakeStatus = .listening :=
  ((recognizer_error_policy noSpeechE true
    { wakeStatus := .listening, lastError := [], shouldRun := true
      recRunning := true, restartScheduled := false }).1 rfl).1

/-! ## Microphone arbitration

Event-level model of which of the three consumers — the wake-word
recognizer (`SpeechRecognition`, which holds the device while running: the
source's own comments at lines 237 and 419 treat it as a mic holder), the
passive level monitor (`micMonitorStreamRef`), and the transport session
(`audioStreamRef`) — holds a microphone acquisition.  Each event mirrors
one code path of `AssistantShell.tsx` together with the React effects its
state updates re-run (the effect at lines 418-426 pausing the monitor for
wake, the monitor effect at lines 516-527, and the wake effect at lines
470-479 which deliberately keeps the recognizer running while the realtime
session is connected). -/

/-- Which consumers hold the microphone, plus the flags their guards read. -/
structure ArbState where
  /-- Source `wakeWordEnabled` (line 57). -/
  wakeEnabled : Bool
  /-- Source `wakeStatus` (line 66). -/
  wakeStatus : WakeStatus
  /-- Source `speechRecIsRunningRef` (line 61): the recognizer engine is running
  and holds its device acquisition. -/
  recRunning : Bool
  /-- Source `micMonitorEnabled` (line 58). -/
  monitorEnabled : Bool
  /-- Source `micMonitorStreamRef` is live (line 79). -/
  monitorOn : Bool
  /-- Source `open` / `openRef` (lines 21-22). -/
  openF : Bool
  /-- Source `realtimeStatus` (line 50). -/
  rtStatus : RtStatus
  /-- Source `audioStreamRef` is live: the transport session holds the mic. -/
  transportMic : Bool
deriving DecidableEq, Repr

/-- The pause-monitor-for-wake effect (lines 418-426): while wake word is
enabled and the assistant is neither open nor connecting/connected, an
enabled monitor is stopped. -/
def pauseMonitorForWake (s : ArbState) : ArbState :=
  if s.wakeEnabled && s.monitorEnabled && !s.openF &&
      !(s.rtStatus = .connected) && !(s.rtStatus = .connecting) then
    { s with monitorOn := false }
  else s

/-- Source `startWakeWord` (lines 273-416): a no-op when the recognizer is
already running (line 277); otherwise the recognizer starts and its
`onstart` handler reports Listening (lines 300-305). -/
def startWakeWordFn (s : ArbState) : ArbState :=
  if s.recRunning then s
  else { s with wakeStatus := .listening, recRunning := true }

/-- Source `stopWakeWord` (lines 462-468) plus the `onend` drop of the running
flag (line 393). -/
def stopWakeWordFn (s : ArbState) : ArbState :=
  { s with wakeStatus := .idle, recRunning := false }

/-- Source `startMicMonitor` (lines 233-254): denied (a silent no-op, the
request is parked) unless the monitor is enabled, the assistant is neither
open nor connecting/connected, and wake listening is not starting or
listening. -/
def startMicMonitorFn (s : ArbState) : ArbState :=
  if !s.monitorEnabled then s
  else if s.openF || s.rtStatus = .connecting || s.rtStatus = .connected then s
  else if s.wakeEnabled && (s.wakeStatus = .starting || s.wakeStatus = .listening) then s
  else { s with monitorOn := true }

/-- Source `stopMicMonitor` (lines 225-231). -/
def stopMicMonitorFn (s : ArbState) : ArbState :=
  { s with monitorOn := false }

/-- Source `openAssistant` (lines 264-271) followed by the monitor effect cleanup
(line 526) and the beginning of `startRealtimeSession` (lines 655, 671):
opening stops the monitor, and the session moves to Connecting unless one
is already underway.  The recognizer is not stopped (lines 470-479). -/
def openAndConnect (s : ArbState) : ArbState :=
  let s1 := if s.openF then s else { s with openF := true, monitorOn := false }
  if s1.rtStatus = .connecting || s1.rtStatus = .connected then s1
  else { s1 with rtStatus := .connecting }

/-- Source `closeAssistant` as seen by the arbitration model (lines 533-632):
status to Idle, transport mic released, overlay closed; the re-run effects
then pause the monitor for wake (lines 418-426) and restart the wake
recognizer if wake word is still enabled (lines 470-479).  The monitor
stream itself is not stopped by teardown (its resume is the separate
delayed event below). -/
def closeFn (s : ArbState) : ArbState :=
  let s1 := { s with rtStatus := .idle, transportMic := false, openF := false }
  let s2 := pauseMonitorForWake s1
  if s2.wakeEnabled then startWakeWordFn s2 else s2

/-- The discrete events of the arbitration model, each naming the source
path it mirrors. -/
inductive ArbEvent where
  /-- Wake word enabled: the pause effect (418-426) and the wake effect
  (470-479) run. -/
  | enableWake
  /-- Wake word disabled: `stopWakeWord` runs, then the monitor effect
  (516-527) may restart the monitor. -/
  | disableWake
  /-- Monitor checkbox enabled: pause effect, then `startMicMonitor`. -/
  | enableMonitor
  /-- Monitor checkbox disabled: `stopMicMonitor` (lines 516-519). -/
  | disableMonitor
  /-- The monitor effect or `restartMicMonitor` invokes `startMicMonitor`
  (lines 256-262, 511-527). -/
  | monitorStart
  /-- Source `handleMicClick` (lines 1323-1342): open and connect, or close. -/
  | openClick
  /-- An accepted wake trigger (lines 358-366): open if closed, then
  start the realtime session; the recognizer keeps running. -/
  | wakeTrigger
  /-- The connect flow acquires the transport microphone and stops the
  monitor (lines 971-1002). -/
  | micAcquired
  /-- The data channel opens: Connected (lines 847-851). -/
  | connectDone
  /-- A failure while connecting: Error (lines 681-687, 1020-1026). -/
  | connectFail
  /-- Source `closeAssistant` invoked. -/
  | closeEvt
  /-- The 250 ms delayed `startMicMonitor` after teardown (lines 629-631). -/
  | monitorResume
deriving DecidableEq, Repr

/-- One event step of the arbitration model. -/
def arbStep : ArbEvent → ArbState → ArbState
  | .enableWake, s => startWakeWordFn (pauseMonitorForWake { s with wakeEnabled := true })
  | .disableWake, s => startMicMonitorFn (stopWakeWordFn { s with wakeEnabled := false })
  | .enableMonitor, s => startMicMonitorFn (pauseMonitorForWake { s with monitorEnabled := true })
  | .disableMonitor, s => stopMicMonitorFn { s with monitorEnabled := false }
  | .monitorStart, s => startMicMonitorFn s
  | .openClick, s => if s.openF then closeFn s else openAndConnect s
  | .wakeTrigger, s => openAndConnect s
  | .micAcquired, s =>
    if s.rtStatus = .connecting then { s with transportMic := true, monitorOn := false } else s
  | .connectDone, s => if s.rtStatus = .connecting then { s with rtStatus := .connected } else s
  | .connectFail, s => if s.rtStatus = .connecting then { s with rtStatus := .error } else s
  | .closeEvt, s => closeFn s
  | .monitorResume, s => startMicMonitorFn s

/-- Run a list of events from a state. -/
def arbRun : List ArbEvent → ArbState → ArbState
  | [], s => s
  | e :: tl, s => arbRun tl (arbStep e s)

/-- The initial state: everything off and idle. -/
def arbInit : ArbState :=
  { wakeEnabled := false, wakeStatus := .idle, recRunning := false
    monitorEnabled := false, monitorOn := false, openF := false
    rtStatus := .idle, transportMic := false }

/-- Inductive invariant of the arbitration model.  Its leading conjunct is
the monitor-exclusion property: whenever the monitor stream is live, the
assistant is neither open nor connecting/connected, wake listening is not
starting or listening, and the transport holds no microphone.  The other
conjuncts are the reachability facts needed to make it inductive: a
connecting or connected session implies the overlay is open, and a held
transport mic implies an open overlay or an active session. -/
def invB (s : ArbState) : Bool :=
  (!s.monitorOn ||
    (s.monitorEnabled && !s.openF && !(s.rtStatus = .connecting) &&
      !(s.rtStatus = .connected) &&
      !(s.wakeEnabled && (s.wakeStatus = .starting || s.wakeStatus = .listening)) &&
      !s.transportMic)) &&
  (!(s.rtStatus = .connecting || s.rtStatus = .connected) || s.openF) &&
  (!s.transportMic || (s.openF || s.rtStatus = .connecting || s.rtStatus = .connected))

/-- Counterexample for claim C1: after enabling wake word (recognizer
Listening, holding the device), a wake trigger connects a session and the
connect flow acquires the transport microphone while the recognizer keeps
running — two of the three consumers hold a device acquisition at the same
instant, refuting the at-most-one-holder invariant.  The wake effect of
lines 470-479 deliberately keeps the recognizer running while the realtime
session is connected. -/
theorem mic_single_holder_counterexample :
    (arbRun [.enableWake, .wakeTrigger, .micAcquired] arbInit).recRunning = true
    ∧ (arbRun [.enableWake, .wakeTrigger, .micAcquired] arbInit).transportMic = true
    ∧ (arbRun [.enableWake, .wakeTrigger, .micAcquired] arbInit).rtStatus = .connecting := by
  decide

/-- The two Booleans. -/
def boolL : List Bool := [false, true]

/-- The four wake statuses. -/
def wsL : List WakeStatus := [.idle, .starting, .listening, .error]

/-- The four realtime statuses. -/
def rtL : List RtStatus := [.idle, .connecting, .connected, .error]

/-- Every event of the arbitration model. -/
def evL : List ArbEvent :=
  [.enableWake, .disableWake, .enableMonitor, .disableMonitor, .monitorStart, .openClick,
   .wakeTrigger, .micAcquired, .connectDone, .connectFail, .closeEvt, .monitorResume]

/-- Every state of the arbitration model. -/
def allArb : List ArbState :=
  boolL.bind fun we => wsL.bind fun ws => boolL.bind fun rr => boolL.bind fun me =>
    boolL.bind fun mo => boolL.bind fun op => rtL.bind fun rt => boolL.map fun tm =>
      ⟨we, ws, rr, me, mo, op, rt, tm⟩

set_option maxHeartbeats 4000000

/-- Exhaustive check of the invariant's preservation over all states and
events. -/
theorem presAll :
    (allArb.all fun s => evL.all fun e => !invB s || invB (arbStep e s)) = true := by
  decide

set_option maxHeartbeats 200000

/-- Every state is enumerated. -/
theorem arb_mem_allArb (s : ArbState) : s ∈ allArb := by
  have hb : ∀ b : Bool, b ∈ boolL := fun b => by cases b <;> decide
  have hw : ∀ w : WakeStatus, w ∈ wsL := fun w => by cases w <;> decide
  have hr : ∀ r : RtStatus, r ∈ rtL := fun r => by cases r <;> decide
  rcases s with ⟨we, ws, rr, me, mo, op, rt, tm⟩
  unfold allArb
  refine List.mem_bind.mpr ⟨we, hb we, ?_⟩
  refine List.mem_bind.mpr ⟨ws, hw ws, ?_⟩
  refine List.mem_bind.mpr ⟨rr, hb rr, ?_⟩
  refine List.mem_bind.mpr ⟨me, hb me, ?_⟩
  refine List.mem_bind.mpr ⟨mo, hb mo, ?_⟩
  refine List.mem_bind.mpr ⟨op, hb op, ?_⟩
  refine List.mem_bind.mpr ⟨rt, hr rt, ?_⟩
  exact List.mem_map.mpr ⟨tm, hb tm, rfl⟩

/-- Every event is enumerated. -/
theorem arb_mem_evL (e : ArbEvent) : e ∈ evL := by
  cases e <;> decide

/-- The invariant is preserved by every event. -/
theorem arb_preservation (e : ArbEvent) (s : ArbState) (h : invB s = true) :
    invB (arbStep e s) = true := by
  have h1 := presAll
  rw [List.all_eq_true] at h1
  have h2 := h1 s (arb_mem_allArb s)
  rw [List.all_eq_true] at h2
  have h3 := h2 e (arb_mem_evL e)
  rcases Bool.or_eq_true_iff.mp h3 with h4 | h4
  · rw [Bool.not_eq_true'] at h4
    rw [h] at h4
    cases h4
  · exact h4

/-- Claim C1 (amended): the level monitor is exclusive — in every
reachable state, a live monitor stream implies the assistant is neither
open nor connecting/connected, wake listening is not active, and the
transport holds no mic; and a monitor request made while wake listening is
starting or listening is denied as a silent no-op (Scenario D).  The wake
recognizer, however, is deliberately kept running while the transport
session holds the microphone, so those two consumers may overlap. -/
theorem monitor_exclusion :
    (∀ tr : List ArbEvent, invB (arbRun tr arbInit) = true)
    ∧ (∀ s : ArbState, s.wakeEnabled = true →
      (s.wakeStatus = .starting ∨ s.wakeStatus = .listening) →
      arbStep .monitorStart s = s) := by
  constructor
  · have hrun : ∀ (tr : List ArbEvent) (s : ArbState),
        invB s = true → invB (arbRun tr s) = true := by
      intro tr
      induction tr with
      | nil => intro s h; exact h
      | cons e tl ih => intro s h; exact ih (arbStep e s) (arb_preservation e s h)
    intro tr
    exact hrun tr arbInit (by decide)
  · intro s hwe hws
    show startMicMonitorFn s = s
    unfold startMicMonitorFn
    split_ifs with h1 h2 h3
    · rfl
    · rfl
    · rfl
    · exfalso
      apply h3
      rw [hwe]
      rcases hws with h | h <;> simp [h]

/-- Witness for the amended claim C1: the empty trace keeps the invariant,
and a monitor request while wake is listening is a no-op. -/
theorem monitor_exclusion_witness :
    invB (arbRun [] arbInit) = true
    ∧ arbStep .monitorStart
        { arbInit with wakeEnabled := true, wakeStatus := .listening, recRunning := true } =
      { arbInit with wakeEnabled := true, wakeStatus := .listening, recRunning := true } :=
  ⟨monitor_exclusion.1 [],
    monitor_exclusion.2
      { arbInit with wakeEnabled := true, wakeStatus := .listening, recRunning := true }
      rfl (Or.inr rfl)⟩

end Assistant
